import Mathlib

/-!
Shallow embedding of `src/main.py` from the service-monitoring repository
(Twilio + Notion web-service monitor), together with theorems settling the
frozen claims about its status-classification and change-gated notification
logic.

Modelling conventions:
* Python strings are Lean `String`; `str.lower()` is `lower` (char-wise
  `Char.toLower`); Python's substring test `needle in hay` is `strContains`.
* A Python value that may be `None` is an `Option`; the `requests` response in
  `get_status` is `Option (Int × String)` (status code and body), `none`
  modelling the absence-of-response case checked by `if response is not None`.
* Status labels are the literal strings the code returns
  (`"Operational"`, `"Doubtful"`, `"Warning"`, `"Maintenance"`, `"Down"`).
* The external collaborators (Notion query, Notion patch, Twilio send) are
  modelled at their interfaces: the query result is an `Option` list of items
  (`none` = non-200 response), the patch is described by the `PatchRequest`
  the code builds (its response is ignored by the code), and the Twilio send
  is described by the `NotificationIntent` the code builds.
-/

namespace ServiceMonitoring

/-- Python list-of-chars prefix-or-deeper containment: `needle in hay` on
`List Char`. `listContains needle hay` is true iff `needle` occurs as a
contiguous sublist of `hay` (the empty needle is contained in everything,
as in Python). -/
def listContains : List Char → List Char → Bool
  | needle, [] => needle.isEmpty
  | needle, c :: rest => needle.isPrefixOf (c :: rest) || listContains needle rest

/-- Python `needle in hay` on strings. -/
def strContains (hay needle : String) : Bool :=
  listContains needle.data hay.data

/-- Python `s.lower()`. -/
def lower (s : String) : String :=
  String.mk (s.data.map Char.toLower)

/-- The service dict built by `get_services_to_monitor` (src/main.py lines
48-60): `id`, `url`, `identifier`, and `last_recorded_status` (defaulted to
`""` when the stored status field is absent). -/
structure Service where
  id : String
  url : String
  identifier : String
  last_recorded_status : String
deriving DecidableEq

/-- One item of the Notion database query response, with the fields the code
reads: `item['id']`, the nested URL and Identifier text contents, and the
nested `item['properties']['Status']['select']['name']` lookup, which is
`none` when that lookup fails with `KeyError` (no recorded status yet). -/
structure NotionItem where
  id : String
  url : String
  identifier : String
  statusSelectName : Option String
deriving DecidableEq

/-- Loop body of `get_services_to_monitor` (src/main.py lines 47-62): build
the service dict; the `try/except KeyError` around the status lookup defaults
`last_recorded_status` to `''`. -/
def buildService (item : NotionItem) : Service :=
  { id := item.id
    url := item.url
    identifier := item.identifier
    last_recorded_status := item.statusSelectName.getD "" }

/-- `get_services_to_monitor` (src/main.py lines 23-64). The Notion query
response is passed in at the collaborator interface: `none` models a non-200
response, where the code prints and returns `None`; otherwise every item is
turned into a service dict. -/
def get_services_to_monitor (queryResponse : Option (List NotionItem)) :
    Option (List Service) :=
  match queryResponse with
  | some items => some (items.map buildService)
  | none => none

/-- `get_status` (src/main.py lines 66-91). The probe result of
`requests.get(service['url'])` is passed in at the collaborator interface:
`some (status_code, response_body)` when a response was obtained, `none`
otherwise (the `if response is not None` check). Returns the Python value of
the function: a status string, or `none` for Python `None` on the
no-response branch. -/
def get_status (service : Service) (response : Option (Int × String)) :
    Option String :=
  match response with
  | some (status_code, response_body) =>
      if 200 ≤ status_code ∧ status_code < 400 ∧
          strContains (lower response_body) (lower service.identifier) = true then
        some "Operational"
      else if 200 ≤ status_code ∧ status_code < 400 then
        some "Doubtful"
      else if 400 ≤ status_code ∧ status_code < 500 then
        some "Warning"
      else if status_code = 503 then
        some "Maintenance"
      else
        some "Down"
  | none => none

/-- The PATCH request `update_service_status` issues (src/main.py lines
93-119): page id and the status name placed in the payload. The code never
inspects the response of this request. -/
structure PatchRequest where
  pageId : String
  statusName : Option String
deriving DecidableEq

/-- `update_service_status` (src/main.py lines 93-119), described by the
request it sends to the Notion pages endpoint. -/
def update_service_status (service : Service) (status : Option String) :
    PatchRequest :=
  { pageId := service.id, statusName := status }

/-- Python f-string rendering of a possibly-`None` status value. -/
def formatValue : Option String → String
  | some s => s
  | none => "None"

/-- The WhatsApp message `send_notification` would create: target url, the
new status, and the message body built on src/main.py line 133. -/
structure NotificationIntent where
  url : String
  status : Option String
  body : String
deriving DecidableEq

/-- `send_notification` (src/main.py lines 121-139): the Twilio message is
created only when `service['last_recorded_status'] != status`; otherwise the
function falls through and returns `None`. -/
def send_notification (service : Service) (status : Option String) :
    Option NotificationIntent :=
  if some service.last_recorded_status ≠ status then
    some { url := service.url
           status := status
           body := "Status for " ++ service.url ++ " is " ++ formatValue status ++ "." }
  else
    none

/-- One iteration of the loop in `main` (src/main.py lines 143-147) for a
single service: compute the status from the service's own probe result,
describe the Notion update, and describe the conditional notification. -/
def runService (probe : String → Option (Int × String)) (service : Service) :
    String × Option String × PatchRequest × Option NotificationIntent :=
  let status := get_status service (probe service.url)
  (service.url, status, update_service_status service status,
    send_notification service status)

/-- `main` (src/main.py lines 141-147). Collaborator behaviour enters as
arguments: the Notion query response, the probe function, the status-sink
response and the notification-channel response (both of which the code
discards without inspection). Returns `none` when the run halts because the
service list could not be fetched (iterating over `None`), otherwise the
list of per-service outcomes. -/
def main (queryResponse : Option (List NotionItem))
    (probe : String → Option (Int × String))
    (sinkResp : PatchRequest → Bool)
    (channelResp : NotificationIntent → String) :
    Option (List (String × Option String × PatchRequest × Option NotificationIntent)) :=
  match get_services_to_monitor queryResponse with
  | none => none
  | some services => some (services.map (runService probe))

/-- The five valid status labels of the spec's `StatusLabel` enumeration. -/
def validLabels : List String :=
  ["Operational", "Doubtful", "Warning", "Maintenance", "Down"]

/-! ### Helper lemmas -/

/-- The empty needle is contained in every character list, as Python's
`'' in s` is always `True`. -/
theorem listContains_nil (hay : List Char) : listContains [] hay = true := by
  cases hay with
  | nil => rfl
  | cons c rest => simp [listContains, List.isPrefixOf]

/-- The empty string is a substring of every string. -/
theorem strContains_empty (hay : String) : strContains hay "" = true :=
  listContains_nil hay.data

/-! ### Claim theorems: the status classifier -/

/-- Claim C1: for every HTTP response whose status code lies in `[200, 400)`,
`get_status` returns `Operational` exactly when the (lowercased) body
contains the (lowercased) identifier as a substring, and `Doubtful`
otherwise — for every body, the empty body included. -/
theorem get_status_success_codes (service : Service) (status_code : Int)
    (response_body : String) (h1 : 200 ≤ status_code) (h2 : status_code < 400) :
    get_status service (some (status_code, response_body)) =
      if strContains (lower response_body) (lower service.identifier) = true then
        some "Operational"
      else
        some "Doubtful" := by
  by_cases hc : strContains (lower response_body) (lower service.identifier) = true
  · simp [get_status, h1, h2, hc]
  · simp [get_status, h1, h2, hc]

/-- Witness for C1 at concrete inputs: identifier `"OK"` against body
`"service is ok"` (case-insensitive match) gives `Operational`, and the
empty body with a non-empty identifier gives `Doubtful`. -/
theorem get_status_success_codes_witness :
    get_status ⟨"p1", "https://example.com", "OK", "Down"⟩ (some (200, "service is ok")) =
      some "Operational" ∧
    get_status ⟨"p1", "https://example.com", "OK", "Down"⟩ (some (302, "")) =
      some "Doubtful" :=
  ⟨(get_status_success_codes ⟨"p1", "https://example.com", "OK", "Down"⟩ 200
      "service is ok" (by decide) (by decide)).trans (by decide),
   (get_status_success_codes ⟨"p1", "https://example.com", "OK", "Down"⟩ 302
      "" (by decide) (by decide)).trans (by decide)⟩

/-- Claim C3 counterexample: on the no-response variant (`none`), `get_status`
does not return `Down` — it returns Python `None`. -/
theorem get_status_no_response_not_down :
    get_status ⟨"p3", "https://down.example", "marker", "Operational"⟩ none ≠
      some "Down" := by
  decide

/-- Claim C3 (amended): on the no-response variant of the probe result,
`get_status` returns no status label at all (Python `None`, after printing a
message); the condition is handled locally by the `is not None` check rather
than by raising, but the result is `none`, not `Down`. -/
theorem get_status_no_response_eq_none (service : Service) :
    get_status service none = none :=
  rfl

/-- Claim C4 counterexample: on the no-response input, `get_status` returns
none of the five status labels, so it is not total onto the labels over all
well-formed probe results. -/
theorem get_status_no_response_not_a_label :
    ¬ ∃ l ∈ validLabels,
        get_status ⟨"p4", "https://x.example", "m", ""⟩ none = some l := by
  decide

/-- Claim C4 (amended): `get_status` is pure and total, and for every HTTP
response — every integer status code paired with any body — it returns
exactly one of the five status labels; on the no-response case it returns
`none` (Python `None`) instead of a label. -/
theorem get_status_response_total :
    (∀ (service : Service) (status_code : Int) (response_body : String),
        get_status service (some (status_code, response_body)) ∈
          [some "Operational", some "Doubtful", some "Warning",
            some "Maintenance", some "Down"]) ∧
    (∀ service : Service, get_status service none = none) := by
  constructor
  · intro service status_code response_body
    simp only [get_status]
    split_ifs <;> simp
  · intro service
    rfl

/-- Claim C5: every status code in `[400, 500)` is classified `Warning`
regardless of the body, and status code 503 does not reach the `Warning`
branch. -/
theorem get_status_client_errors :
    (∀ (service : Service) (status_code : Int) (response_body : String),
        400 ≤ status_code → status_code < 500 →
        get_status service (some (status_code, response_body)) = some "Warning") ∧
    (∀ (service : Service) (response_body : String),
        get_status service (some (503, response_body)) ≠ some "Warning") := by
  constructor
  · intro service status_code response_body h1 h2
    have hlt : ¬ status_code < 400 := by omega
    simp [get_status, hlt, h1, h2]
  · intro service response_body
    have h : get_status service (some (503, response_body)) = some "Maintenance" := by
      simp [get_status]
    rw [h]
    decide

/-- Witness for C5 at a concrete input: a 404 response is `Warning`. -/
theorem get_status_client_errors_witness :
    get_status ⟨"p5", "https://a.example", "m", ""⟩ (some (404, "not found")) =
      some "Warning" :=
  get_status_client_errors.1 ⟨"p5", "https://a.example", "m", ""⟩ 404 "not found"
    (by decide) (by decide)

/-- Claim C6: among status codes outside `[200, 500)`, 503 is classified
`Maintenance` (the carve-out wins before the generic fallback), and every
other such code is classified `Down`, regardless of the body. -/
theorem get_status_maintenance_and_down :
    (∀ (service : Service) (response_body : String),
        get_status service (some (503, response_body)) = some "Maintenance") ∧
    (∀ (service : Service) (status_code : Int) (response_body : String),
        ¬ (200 ≤ status_code ∧ status_code < 500) → status_code ≠ 503 →
        get_status service (some (status_code, response_body)) = some "Down") := by
  constructor
  · intro service response_body
    simp [get_status]
  · intro service status_code response_body hrange hne
    have hA : ¬ (200 ≤ status_code ∧ status_code < 400 ∧
        strContains (lower response_body) (lower service.identifier) = true) := by
      rintro ⟨ha, hb, _⟩
      exact hrange ⟨ha, by omega⟩
    have hB : ¬ (200 ≤ status_code ∧ status_code < 400) := by
      rintro ⟨ha, hb⟩
      exact hrange ⟨ha, by omega⟩
    have hC : ¬ (400 ≤ status_code ∧ status_code < 500) := by
      rintro ⟨ha, hb⟩
      exact hrange ⟨by omega, hb⟩
    simp [get_status, hA, hB, hC, hne]

/-- Witness for C6 at concrete inputs: 500 and 100 are `Down`. -/
theorem get_status_maintenance_and_down_witness :
    get_status ⟨"p6", "https://b.example", "m", ""⟩ (some (500, "err")) =
      some "Down" ∧
    get_status ⟨"p6", "https://b.example", "m", ""⟩ (some (100, "cont")) =
      some "Down" :=
  ⟨get_status_maintenance_and_down.2 ⟨"p6", "https://b.example", "m", ""⟩ 500 "err"
      (by decide) (by decide),
   get_status_maintenance_and_down.2 ⟨"p6", "https://b.example", "m", ""⟩ 100 "cont"
      (by decide) (by decide)⟩

/-- Claim C10: with the empty identifier, every response with status code in
`[200, 400)` is classified `Operational`, whatever the body (the empty
substring occurs in every string), so `Doubtful` is unreachable for such
codes. -/
theorem get_status_empty_identifier (service : Service) (status_code : Int)
    (response_body : String) (hid : service.identifier = "")
    (h1 : 200 ≤ status_code) (h2 : status_code < 400) :
    get_status service (some (status_code, response_body)) = some "Operational" := by
  have hc : strContains (lower response_body) (lower service.identifier) = true := by
    rw [hid]
    exact strContains_empty (lower response_body)
  simp [get_status, h1, h2, hc]

/-- Witness for C10 at a concrete input: empty identifier, empty body,
status code 300 gives `Operational`. -/
theorem get_status_empty_identifier_witness :
    get_status ⟨"p10", "https://c.example", "", "Doubtful"⟩ (some (300, "")) =
      some "Operational" :=
  get_status_empty_identifier ⟨"p10", "https://c.example", "", "Doubtful"⟩ 300 ""
    rfl (by decide) (by decide)

/-! ### Claim theorems: the change-gated notifier -/

/-- Claim C2: `send_notification` produces an intent exactly when the new
status differs from `last_recorded_status` (exact inequality); an unchanged
status it never notifies, and a service with empty recorded status is
notified for every valid status label. -/
theorem send_notification_change_gate :
    (∀ (service : Service) (status : Option String),
        (send_notification service status).isSome = true ↔
          some service.last_recorded_status ≠ status) ∧
    (∀ service : Service,
        send_notification service (some service.last_recorded_status) = none) ∧
    (∀ (service : Service) (label : String),
        service.last_recorded_status = "" → label ∈ validLabels →
        (send_notification service (some label)).isSome = true) := by
  refine ⟨?_, ?_, ?_⟩
  · intro service status
    simp only [send_notification]
    split_ifs with h <;> simp [h]
  · intro service
    simp [send_notification]
  · intro service label hempty hmem
    have hne : some service.last_recorded_status ≠ some label := by
      rw [hempty]
      intro h
      injection h with h2
      rw [← h2] at hmem
      exact absurd hmem (by decide)
    simp [send_notification, hne]

/-- Witness for C2 at concrete inputs: empty recorded status notifies on
`Operational`; recorded status `Down` with new status `Down` stays silent. -/
theorem send_notification_change_gate_witness :
    (send_notification ⟨"p2", "https://example.com", "OK", ""⟩
        (some "Operational")).isSome = true ∧
    send_notification ⟨"p2b", "https://example.com", "OK", "Down"⟩
        (some "Down") = none :=
  ⟨send_notification_change_gate.2.2 ⟨"p2", "https://example.com", "OK", ""⟩
      "Operational" rfl (by decide),
   send_notification_change_gate.2.1 ⟨"p2b", "https://example.com", "OK", "Down"⟩⟩

/-- Claim C7: every intent `send_notification` emits for a status label
carries exactly the message `"Status for {url} is {status}."`. -/
theorem send_notification_message_shape (service : Service) (st : String)
    (intent : NotificationIntent)
    (h : send_notification service (some st) = some intent) :
    intent.body = "Status for " ++ service.url ++ " is " ++ st ++ "." := by
  simp only [send_notification] at h
  split_ifs at h
  injection h with h2
  rw [← h2]
  rfl

/-- Witness for C7 at a concrete input: url `https://example.com`, new
status `Operational`, message exactly
`"Status for https://example.com is Operational."`. -/
theorem send_notification_message_shape_witness :
    (⟨"https://example.com", some "Operational",
        "Status for https://example.com is Operational."⟩ :
      NotificationIntent).body =
      "Status for https://example.com is Operational." :=
  (send_notification_message_shape ⟨"p7", "https://example.com", "OK", "Down"⟩
      "Operational"
      ⟨"https://example.com", some "Operational",
        "Status for https://example.com is Operational."⟩
      (by decide)).trans rfl

/-! ### Claim theorems: the service source -/

/-- Claim C9: a service record built from a stored item with no recorded
status gets the empty string as `last_recorded_status`, and building the
service list never fails: every item yields a record. -/
theorem build_service_missing_status_default :
    (∀ item : NotionItem, item.statusSelectName = none →
        (buildService item).last_recorded_status = "") ∧
    (∀ items : List NotionItem, ∃ services,
        get_services_to_monitor (some items) = some services ∧
        services.length = items.length) := by
  constructor
  · intro item h
    simp [buildService, h]
  · intro items
    exact ⟨items.map buildService, rfl, by simp⟩

/-- Witness for C9 at a concrete input: an item whose status lookup failed
yields `last_recorded_status = ""`. -/
theorem build_service_missing_status_default_witness :
    (buildService ⟨"p9", "https://example.com", "OK", none⟩).last_recorded_status =
      "" :=
  build_service_missing_status_default.1 ⟨"p9", "https://example.com", "OK", none⟩ rfl

/-! ### Claim theorems: the run loop -/

/-- Claim C8: only a failed service-list fetch halts a run (clause 1); when
the fetch succeeds every service is processed to a defined outcome whatever
the per-service probe results (clause 2); the run's outcome never depends on
the status-sink or notification-channel responses, which the code discards
(clause 3); and each service's outcome depends only on its own probe result,
so a probe failure on one service leaves the others' outcomes intact and
defined (clause 4). -/
theorem main_halts_only_on_fetch_failure :
    (∀ (probe : String → Option (Int × String)) (sk : PatchRequest → Bool)
        (ch : NotificationIntent → String), main none probe sk ch = none) ∧
    (∀ (items : List NotionItem) (probe : String → Option (Int × String))
        (sk : PatchRequest → Bool) (ch : NotificationIntent → String),
        ∃ l, main (some items) probe sk ch = some l ∧ l.length = items.length) ∧
    (∀ (queryResponse : Option (List NotionItem))
        (probe : String → Option (Int × String))
        (sk1 sk2 : PatchRequest → Bool) (ch1 ch2 : NotificationIntent → String),
        main queryResponse probe sk1 ch1 = main queryResponse probe sk2 ch2) ∧
    (∀ (items : List NotionItem)
        (pr1 pr2 : String → Option (Int × String))
        (sk : PatchRequest → Bool) (ch : NotificationIntent → String)
        (j : Nat) (hj : j < items.length),
        pr1 (buildService items[j]).url = pr2 (buildService items[j]).url →
        ∃ l1 l2, main (some items) pr1 sk ch = some l1 ∧
          main (some items) pr2 sk ch = some l2 ∧
          l1[j]? = l2[j]? ∧ l1[j]?.isSome = true) := by
  refine ⟨?_, ?_, ?_, ?_⟩
  · intro probe sk ch
    rfl
  · intro items probe sk ch
    exact ⟨(items.map buildService).map (runService probe), rfl, by simp⟩
  · intro queryResponse probe sk1 sk2 ch1 ch2
    rfl
  · intro items pr1 pr2 sk ch j hj hagree
    refine ⟨(items.map buildService).map (runService pr1),
            (items.map buildService).map (runService pr2), rfl, rfl, ?_, ?_⟩
    · rw [List.getElem?_map, List.getElem?_map, List.getElem?_map,
        List.getElem?_map, List.getElem?_eq_getElem hj]
      simp [runService, hagree]
    · rw [List.getElem?_map, List.getElem?_map, List.getElem?_eq_getElem hj]
      simp

/-- Witness for C8 at concrete inputs: two monitored services; the probe of
the first fails (no response) while a second probe function succeeds there,
the sink rejects every update and both probes agree on the second service's
url — the second service's outcome is the same defined value either way. -/
theorem main_halts_only_on_fetch_failure_witness :
    ∃ l1 l2,
      main (some [⟨"pA", "https://a.example", "alpha", none⟩,
                  ⟨"pB", "https://b.example", "beta", some "Down"⟩])
        (fun u => if u = "https://a.example" then none else some (200, "beta page"))
        (fun _ => false) (fun _ => "SM0") = some l1 ∧
      main (some [⟨"pA", "https://a.example", "alpha", none⟩,
                  ⟨"pB", "https://b.example", "beta", some "Down"⟩])
        (fun _ => some (200, "beta page"))
        (fun _ => false) (fun _ => "SM0") = some l2 ∧
      l1[1]? = l2[1]? ∧ l1[1]?.isSome = true :=
  main_halts_only_on_fetch_failure.2.2.2
    [⟨"pA", "https://a.example", "alpha", none⟩,
     ⟨"pB", "https://b.example", "beta", some "Down"⟩]
    (fun u => if u = "https://a.example" then none else some (200, "beta page"))
    (fun _ => some (200, "beta page"))
    (fun _ => false) (fun _ => "SM0") 1 (by decide) (by decide)

end ServiceMonitoring
